import Mathlib

/-!
Verification of the gatus-sdk Go client library against its natural-language
specification.  The Go sources are shallowly embedded: strings become
`List Char`, the HTTP exchange becomes an explicit transport function
(call index to scripted response), and every fallible operation returns
`Except GoError`.  The repository ships two generations of some files
(`keys.go`/`endpoints.go` and the unnamed variants `part_000`/`part_004`);
both generations are embedded, in the namespaces `EndpointsGo` (named files)
and `Part004` (unnamed variant).
-/

set_option autoImplicit false

namespace GatusSDK

/-- Go strings are modelled as lists of characters. -/
abbrev GoStr := List Char

/-- Embed a Lean string literal as a `GoStr`. -/
def gs (s : String) : GoStr := s.data

/-- Model of Go `strings.HasSuffix`. -/
def goHasSuffix (s suffix : GoStr) : Bool := suffix.isSuffixOf s

/-- Model of Go `strings.TrimSuffix`: removes `suffix` from the end of `s`
at most once, returning `s` unchanged when it is not a suffix. -/
def goTrimSuffix (s suffix : GoStr) : GoStr :=
  if goHasSuffix s suffix then s.take (s.length - suffix.length) else s

/-- The replacement pairs handed to `strings.NewReplacer` in `keys.go`
(`GenerateEndpointKey`): `/ _ , . #` all map to `-`. -/
def endpointKeyPairs : List (Char × Char) :=
  [('/', '-'), ('_', '-'), (',', '-'), ('.', '-'), ('#', '-')]

/-- The replacement pairs handed to `strings.NewReplacer` in the unnamed
variant `part_000` (`GenerateKey`): `/ _ , . # + &` all map to `-`. -/
def generateKeyPairs : List (Char × Char) :=
  [('/', '-'), ('_', '-'), (',', '-'), ('.', '-'), ('#', '-'), ('+', '-'), ('&', '-')]

/-- A `strings.Replacer` whose patterns are all single characters acts as a
character map: the first pair whose pattern matches supplies the
replacement, otherwise the character passes through. -/
def replacerChar (pairs : List (Char × Char)) (c : Char) : Char :=
  match pairs.find? (fun p => p.1 = c) with
  | some p => p.2
  | none => c

/-- `replacer.Replace` over a whole string (single-character patterns). -/
def replacerRun (pairs : List (Char × Char)) (s : GoStr) : GoStr :=
  s.map (replacerChar pairs)

/-- Embedding of `GenerateEndpointKey` from `src/keys.go`: sanitize group and
name with the five-character replacer, then join with an underscore
(leading underscore when the sanitized group is empty). -/
def GenerateEndpointKey (group name : GoStr) : GoStr :=
  let sanitizedGroup := replacerRun endpointKeyPairs group
  let sanitizedName := replacerRun endpointKeyPairs name
  if sanitizedGroup = [] then '_' :: sanitizedName
  else sanitizedGroup ++ '_' :: sanitizedName

/-- Embedding of `GenerateKey` from `src/unnamed/part_000`: same as
`GenerateEndpointKey` but the replacer also maps `+` and `&` to `-`. -/
def GenerateKey (group name : GoStr) : GoStr :=
  let sanitizedGroup := replacerRun generateKeyPairs group
  let sanitizedName := replacerRun generateKeyPairs name
  if sanitizedGroup = [] then '_' :: sanitizedName
  else sanitizedGroup ++ '_' :: sanitizedName

/-- Sanitizer as worded by the spec (section 4.1): replace every occurrence
of path separator, underscore, comma, period, hash, plus and ampersand with
a hyphen; every other character passes through unchanged. -/
def specSanitizeChar (c : Char) : Char :=
  if c ∈ ['/', '_', ',', '.', '#', '+', '&'] then '-' else c

/-- The key normalizer as worded by the spec: `sanitize(group) ++ "_" ++
sanitize(name)`, and `"_" ++ sanitize(name)` when the group is empty. -/
def specNormalize (group name : GoStr) : GoStr :=
  if group = [] then '_' :: name.map specSanitizeChar
  else group.map specSanitizeChar ++ '_' :: name.map specSanitizeChar

theorem replacerChar_generateKeyPairs (c : Char) :
    replacerChar generateKeyPairs c = specSanitizeChar c := by
  simp only [replacerChar, generateKeyPairs, List.find?, specSanitizeChar,
    List.mem_cons, List.not_mem_nil, or_false]
  by_cases h1 : c = '/' <;> by_cases h2 : c = '_' <;> by_cases h3 : c = ',' <;>
    by_cases h4 : c = '.' <;> by_cases h5 : c = '#' <;> by_cases h6 : c = '+' <;>
    by_cases h7 : c = '&' <;>
    simp_all [eq_comm]

theorem replacerRun_eq_nil_iff (pairs : List (Char × Char)) (s : GoStr) :
    replacerRun pairs s = [] ↔ s = [] := by
  simp [replacerRun]

/-- Character map performed by the five-pair replacer of `keys.go`, written
as a direct conditional. -/
def endpointSanitizeChar (c : Char) : Char :=
  if c ∈ ['/', '_', ',', '.', '#'] then '-' else c

theorem replacerChar_endpointKeyPairs (c : Char) :
    replacerChar endpointKeyPairs c = endpointSanitizeChar c := by
  simp only [replacerChar, endpointKeyPairs, List.find?, endpointSanitizeChar,
    List.mem_cons, List.not_mem_nil, or_false]
  by_cases h1 : c = '/' <;> by_cases h2 : c = '_' <;> by_cases h3 : c = ',' <;>
    by_cases h4 : c = '.' <;> by_cases h5 : c = '#' <;>
    simp_all [eq_comm]

theorem sanitize_agree_away_from_plus_amp (c : Char) (h1 : c ≠ '+') (h2 : c ≠ '&') :
    replacerChar generateKeyPairs c = replacerChar endpointKeyPairs c := by
  rw [replacerChar_generateKeyPairs, replacerChar_endpointKeyPairs]
  simp [specSanitizeChar, endpointSanitizeChar, h1, h2]

theorem replacerRun_generateKey_eq_map (s : GoStr) :
    replacerRun generateKeyPairs s = s.map specSanitizeChar := by
  simp only [replacerRun]
  exact List.map_eq_map_iff.mpr fun c _ => replacerChar_generateKeyPairs c

/-- The two key normalizers agree exactly on the inputs in which neither
component contains a plus or an ampersand. -/
theorem generateKey_eq_generateEndpointKey_iff (g n : GoStr) :
    GenerateKey g n = GenerateEndpointKey g n ↔
      ('+' ∉ g ∧ '&' ∉ g ∧ '+' ∉ n ∧ '&' ∉ n) := by
  constructor
  · intro h
    by_cases hg : g = []
    · subst hg
      simp [GenerateKey, GenerateEndpointKey, replacerRun, List.map_eq_map_iff] at h
      have hmaps : ∀ c ∈ n, replacerChar generateKeyPairs c = replacerChar endpointKeyPairs c := h
      refine ⟨by simp, by simp, ?_, ?_⟩
      · intro hc
        have := hmaps '+' hc
        simp [replacerChar_generateKeyPairs, replacerChar_endpointKeyPairs,
          specSanitizeChar, endpointSanitizeChar] at this
      · intro hc
        have := hmaps '&' hc
        simp [replacerChar_generateKeyPairs, replacerChar_endpointKeyPairs,
          specSanitizeChar, endpointSanitizeChar] at this
    · have hgA : replacerRun generateKeyPairs g ≠ [] := by
        simpa [replacerRun_eq_nil_iff] using hg
      have hgB : replacerRun endpointKeyPairs g ≠ [] := by
        simpa [replacerRun_eq_nil_iff] using hg
      simp only [GenerateKey, GenerateEndpointKey, if_neg hgA, if_neg hgB] at h
      have hlen : (replacerRun generateKeyPairs g).length =
          (replacerRun endpointKeyPairs g).length := by
        simp [replacerRun]
      obtain ⟨hgrp, htail⟩ := List.append_inj h hlen
      have hname : replacerRun generateKeyPairs n = replacerRun endpointKeyPairs n :=
        List.cons.inj htail |>.2
      have hmg : ∀ c ∈ g, replacerChar generateKeyPairs c = replacerChar endpointKeyPairs c :=
        List.map_eq_map_iff.mp hgrp
      have hmn : ∀ c ∈ n, replacerChar generateKeyPairs c = replacerChar endpointKeyPairs c :=
        List.map_eq_map_iff.mp hname
      refine ⟨?_, ?_, ?_, ?_⟩ <;> intro hc
      · have := hmg '+' hc
        simp [replacerChar_generateKeyPairs, replacerChar_endpointKeyPairs,
          specSanitizeChar, endpointSanitizeChar] at this
      · have := hmg '&' hc
        simp [replacerChar_generateKeyPairs, replacerChar_endpointKeyPairs,
          specSanitizeChar, endpointSanitizeChar] at this
      · have := hmn '+' hc
        simp [replacerChar_generateKeyPairs, replacerChar_endpointKeyPairs,
          specSanitizeChar, endpointSanitizeChar] at this
      · have := hmn '&' hc
        simp [replacerChar_generateKeyPairs, replacerChar_endpointKeyPairs,
          specSanitizeChar, endpointSanitizeChar] at this
  · rintro ⟨hg1, hg2, hn1, hn2⟩
    have hmapg : replacerRun generateKeyPairs g = replacerRun endpointKeyPairs g := by
      simp only [replacerRun]
      exact List.map_eq_map_iff.mpr fun c hc =>
        sanitize_agree_away_from_plus_amp c (fun e => hg1 (e ▸ hc)) (fun e => hg2 (e ▸ hc))
    have hmapn : replacerRun generateKeyPairs n = replacerRun endpointKeyPairs n := by
      simp only [replacerRun]
      exact List.map_eq_map_iff.mpr fun c hc =>
        sanitize_agree_away_from_plus_amp c (fun e => hn1 (e ▸ hc)) (fun e => hn2 (e ▸ hc))
    simp only [GenerateKey, GenerateEndpointKey, hmapg, hmapn]

/-- Claim C3: the key normalizer `GenerateKey` (the generation with the full
seven-character replacement set, `src/unnamed/part_000`) returns
`sanitize(group) ++ "_" ++ sanitize(name)` (leading underscore when the
group is empty), where sanitize replaces each of `/ _ , . # + &` with `-`
and leaves every other character unchanged; and
`GenerateKey "env+prod&region" "service+api&gateway"` is
`"env-prod-region_service-api-gateway"`. -/
theorem generateKey_matches_spec_normalize :
    (∀ g n : GoStr, GenerateKey g n = specNormalize g n) ∧
      GenerateKey (gs "env+prod&region") (gs "service+api&gateway") =
        gs "env-prod-region_service-api-gateway" := by
  constructor
  · intro g n
    simp only [GenerateKey, specNormalize, replacerRun_generateKey_eq_map,
      List.map_eq_nil_iff]
  · decide

/-! ## Model of the HTTP exchange and JSON decoding (`src/client.go`) -/

/-- JSON documents, as produced by `encoding/json` after parsing. -/
inductive Json where
  | null
  | bool (b : Bool)
  | num (q : Rat)
  | str (s : GoStr)
  | arr (elems : List Json)
  | obj (fields : List (GoStr × Json))

/-- Outcome of `json.Decoder.Decode` reading one value from a byte stream:
end of input before any value, a parsed value, or a syntax error. -/
inductive JsonReadOutcome where
  | eof
  | value (j : Json)
  | malformed

/-- A byte stream as seen by the decoder: its raw text together with the
result of reading one JSON value from it.  The coherence of the two fields
is an assumption on inputs; concrete inputs used below are coherent. -/
structure Payload where
  text : GoStr
  read : JsonReadOutcome

/-- The empty body: zero bytes, reading yields end of input. -/
def emptyPayload : Payload := ⟨[], .eof⟩

/-- Marker standing for the two gzip magic bytes in the raw rendering of a
compressed stream. -/
def gzipMagicMark : GoStr := gs "\x1f\x8b"

/-- The on-the-wire response body.  `compress/gzip` is modelled abstractly:
`gzipped p` is a well-formed gzip stream whose decompressed content is `p`;
`plain p` is an uncompressed body (not a well-formed gzip stream). -/
inductive WireBody where
  | plain (p : Payload)
  | gzipped (p : Payload)

/-- Model of `gzip.NewReader` + full read: succeeds exactly on well-formed
gzip streams, yielding the decompressed content. -/
def WireBody.gunzip : WireBody → Option Payload
  | .plain _ => none
  | .gzipped p => some p

/-- Reading the body without decompression: a compressed stream renders as
opaque non-JSON bytes. -/
def WireBody.rawPayload : WireBody → Payload
  | .plain p => p
  | .gzipped p => ⟨gzipMagicMark ++ p.text, .malformed⟩

/-- An HTTP response as consumed by `decodeResponse`. -/
structure HttpResponse where
  statusCode : Nat
  contentEncoding : GoStr
  body : WireBody

/-- The error taxonomy of the library.  `validationError` and `apiError`
mirror the structs of `src/errors.go`; `transportError` is the wrapped
"executing request" failure; `gzipReaderError` the wrapped "creating gzip
reader" failure; `jsonDecodeError` the wrapped "decoding response" failure
(carrying the offending payload text to give distinct errors identity). -/
inductive GoError where
  | validationError (field message : GoStr)
  | transportError (cause : GoStr)
  | apiError (statusCode : Nat) (message body : GoStr)
  | gzipReaderError
  | jsonDecodeError (text : GoStr)
  deriving DecidableEq

/-- Whether an error is the `*APIError` of `src/errors.go`. -/
def GoError.isAPIError : GoError → Bool
  | .apiError _ _ _ => true
  | _ => false

/-- Whether an error is a wrapped JSON decoding failure. -/
def GoError.isJSONDecodeError : GoError → Bool
  | .jsonDecodeError _ => true
  | _ => false

/-- Model of `net/http.StatusText` for the common status codes; codes
outside the table map to the empty string, as in Go. -/
def statusText (code : Nat) : GoStr :=
  match code with
  | 100 => gs "Continue"
  | 101 => gs "Switching Protocols"
  | 200 => gs "OK"
  | 201 => gs "Created"
  | 202 => gs "Accepted"
  | 203 => gs "Non-Authoritative Information"
  | 204 => gs "No Content"
  | 205 => gs "Reset Content"
  | 206 => gs "Partial Content"
  | 300 => gs "Multiple Choices"
  | 301 => gs "Moved Permanently"
  | 302 => gs "Found"
  | 303 => gs "See Other"
  | 304 => gs "Not Modified"
  | 307 => gs "Temporary Redirect"
  | 308 => gs "Permanent Redirect"
  | 400 => gs "Bad Request"
  | 401 => gs "Unauthorized"
  | 402 => gs "Payment Required"
  | 403 => gs "Forbidden"
  | 404 => gs "Not Found"
  | 405 => gs "Method Not Allowed"
  | 406 => gs "Not Acceptable"
  | 408 => gs "Request Timeout"
  | 409 => gs "Conflict"
  | 410 => gs "Gone"
  | 411 => gs "Length Required"
  | 412 => gs "Precondition Failed"
  | 415 => gs "Unsupported Media Type"
  | 429 => gs "Too Many Requests"
  | 500 => gs "Internal Server Error"
  | 501 => gs "Not Implemented"
  | 502 => gs "Bad Gateway"
  | 503 => gs "Service Unavailable"
  | 504 => gs "Gateway Timeout"
  | _ => []

/-- Embedding of `decodeResponse` from `src/client.go`: wrap the body in a
decompressing reader when the `Content-Encoding: gzip` header is present
(this happens before any status inspection), classify non-2xx statuses as
`APIError` carrying the status text and the fully read (possibly
decompressed) body, succeed immediately on 204, treat end-of-input as
success with the zero value, and otherwise unmarshal the JSON value through
the target-shape decoder `dec`. -/
def decodeResponse {α : Type} (dec : Json → Option α) (zero : α)
    (resp : HttpResponse) : Except GoError α :=
  let rdr : Except GoError Payload :=
    if resp.contentEncoding = gs "gzip" then
      match resp.body.gunzip with
      | none => .error .gzipReaderError
      | some p => .ok p
    else .ok resp.body.rawPayload
  match rdr with
  | .error e => .error e
  | .ok payload =>
    if resp.statusCode < 200 ∨ 300 ≤ resp.statusCode then
      .error (.apiError resp.statusCode (statusText resp.statusCode) payload.text)
    else if resp.statusCode = 204 then
      .ok zero
    else
      match payload.read with
      | .eof => .ok zero
      | .malformed => .error (.jsonDecodeError payload.text)
      | .value j =>
        match dec j with
        | some v => .ok v
        | none => .error (.jsonDecodeError payload.text)

/-! ## Data model (`src/models.go`) and per-shape JSON unmarshalling.
Timestamps are kept as their raw string form (RFC3339 validity is not
modelled); a field of the wrong JSON kind is a type error, a missing or
null field leaves the zero value, unknown fields are ignored — as
`encoding/json` does. -/

/-- `UptimeData` of `src/models.go` (timestamp kept as raw text). -/
structure UptimeData where
  uptime : Rat
  duration : GoStr
  timestamp : GoStr
  deriving DecidableEq

/-- The zero value a fresh `var data UptimeData` holds. -/
def UptimeData.zero : UptimeData := ⟨0, [], []⟩

/-- `ResponseTimeData` of `src/models.go`. -/
structure ResponseTimeData where
  average : Int
  min : Int
  max : Int
  timestamp : GoStr
  deriving DecidableEq

/-- The zero value of `ResponseTimeData`. -/
def ResponseTimeData.zero : ResponseTimeData := ⟨0, 0, 0, []⟩

/-- `ConditionResult` of `src/models.go`. -/
structure ConditionResult where
  condition : GoStr
  success : Bool
  deriving DecidableEq

/-- `EndpointResult` of `src/models.go`. -/
structure EndpointResult where
  status : Int
  hostname : GoStr
  duration : Int
  conditionResults : List ConditionResult
  success : Bool
  timestamp : GoStr
  errors : List GoStr
  name : GoStr
  deriving DecidableEq

/-- `EndpointStatus` of `src/models.go`. -/
structure EndpointStatus where
  name : GoStr
  group : GoStr
  key : GoStr
  results : List EndpointResult
  deriving DecidableEq

/-- The zero value of `EndpointStatus`. -/
def EndpointStatus.zero : EndpointStatus := ⟨[], [], [], []⟩

/-- Look up a field of a JSON object by key. -/
def jsonField (fields : List (GoStr × Json)) (k : GoStr) : Option Json :=
  (fields.find? (fun f => f.1 == k)).map (fun f => f.2)

/-- Unmarshal an object field into a `float64`-style number. -/
def fieldAsNum (fields : List (GoStr × Json)) (k : GoStr) : Option Rat :=
  match jsonField fields k with
  | none => some 0
  | some .null => some 0
  | some (.num q) => some q
  | some _ => none

/-- Unmarshal an object field into an `int`-style number (fractional
numbers are a type error, as in `encoding/json`). -/
def fieldAsInt (fields : List (GoStr × Json)) (k : GoStr) : Option Int :=
  match jsonField fields k with
  | none => some 0
  | some .null => some 0
  | some (.num q) => if q.den = 1 then some q.num else none
  | some _ => none

/-- Unmarshal an object field into a string. -/
def fieldAsStr (fields : List (GoStr × Json)) (k : GoStr) : Option GoStr :=
  match jsonField fields k with
  | none => some []
  | some .null => some []
  | some (.str s) => some s
  | some _ => none

/-- Unmarshal an object field into a bool. -/
def fieldAsBool (fields : List (GoStr × Json)) (k : GoStr) : Option Bool :=
  match jsonField fields k with
  | none => some false
  | some .null => some false
  | some (.bool b) => some b
  | some _ => none

/-- Unmarshal an object field into a `[]string`. -/
def fieldAsStrList (fields : List (GoStr × Json)) (k : GoStr) : Option (List GoStr) :=
  match jsonField fields k with
  | none => some []
  | some .null => some []
  | some (.arr xs) =>
    xs.mapM (fun j => match j with | .str s => some s | _ => none)
  | some _ => none

/-- `json.Unmarshal` into a bare `float64` target: numbers succeed, null is
a no-op on the zero value, anything else is a type error. -/
def decodeFloat64 (j : Json) : Option Rat :=
  match j with
  | .num q => some q
  | .null => some 0
  | _ => none

/-- `json.Unmarshal` into `UptimeData`. -/
def decodeUptimeData (j : Json) : Option UptimeData :=
  match j with
  | .null => some UptimeData.zero
  | .obj fields => do
    let u ← fieldAsNum fields (gs "uptime")
    let d ← fieldAsStr fields (gs "duration")
    let ts ← fieldAsStr fields (gs "timestamp")
    some ⟨u, d, ts⟩
  | _ => none

/-- `json.Unmarshal` into `ResponseTimeData`. -/
def decodeResponseTimeData (j : Json) : Option ResponseTimeData :=
  match j with
  | .null => some ResponseTimeData.zero
  | .obj fields => do
    let avg ← fieldAsInt fields (gs "average")
    let lo ← fieldAsInt fields (gs "min")
    let hi ← fieldAsInt fields (gs "max")
    let ts ← fieldAsStr fields (gs "timestamp")
    some ⟨avg, lo, hi, ts⟩
  | _ => none

/-- `json.Unmarshal` into `ConditionResult`. -/
def decodeConditionResult (j : Json) : Option ConditionResult :=
  match j with
  | .null => some ⟨[], false⟩
  | .obj fields => do
    let c ← fieldAsStr fields (gs "condition")
    let s ← fieldAsBool fields (gs "success")
    some ⟨c, s⟩
  | _ => none

/-- `json.Unmarshal` into `EndpointResult`. -/
def decodeEndpointResult (j : Json) : Option EndpointResult :=
  match j with
  | .null => some ⟨0, [], 0, [], false, [], [], []⟩
  | .obj fields => do
    let status ← fieldAsInt fields (gs "status")
    let hostname ← fieldAsStr fields (gs "hostname")
    let duration ← fieldAsInt fields (gs "duration")
    let conds ← match jsonField fields (gs "conditionResults") with
      | none => some []
      | some .null => some []
      | some (.arr xs) => xs.mapM decodeConditionResult
      | some _ => none
    let success ← fieldAsBool fields (gs "success")
    let ts ← fieldAsStr fields (gs "timestamp")
    let errs ← fieldAsStrList fields (gs "errors")
    let nm ← fieldAsStr fields (gs "name")
    some ⟨status, hostname, duration, conds, success, ts, errs, nm⟩
  | _ => none

/-- `json.Unmarshal` into `EndpointStatus`. -/
def decodeEndpointStatus (j : Json) : Option EndpointStatus :=
  match j with
  | .null => some EndpointStatus.zero
  | .obj fields => do
    let nm ← fieldAsStr fields (gs "name")
    let grp ← fieldAsStr fields (gs "group")
    let key ← fieldAsStr fields (gs "key")
    let results ← match jsonField fields (gs "results") with
      | none => some []
      | some .null => some []
      | some (.arr xs) => xs.mapM decodeEndpointResult
      | some _ => none
    some ⟨nm, grp, key, results⟩
  | _ => none

/-! ## URL escaping (`net/url.PathEscape`, `QueryEscape`, `Values.Encode`) -/

/-- Upper-case hexadecimal digit. -/
def hexUpperDigit (n : Nat) : Char :=
  if n < 10 then Char.ofNat (48 + n) else Char.ofNat (65 + (n - 10))

/-- UTF-8 byte encoding of a character. -/
def utf8EncodeChar (c : Char) : List Nat :=
  let n := c.toNat
  if n < 128 then [n]
  else if n < 2048 then [192 + n / 64, 128 + n % 64]
  else if n < 65536 then [224 + n / 4096, 128 + (n / 64) % 64, 128 + n % 64]
  else [240 + n / 262144, 128 + (n / 4096) % 64, 128 + (n / 64) % 64, 128 + n % 64]

/-- Percent-encode one byte. -/
def percentEncodeByte (b : Nat) : GoStr :=
  ['%', hexUpperDigit (b / 16), hexUpperDigit (b % 16)]

/-- ASCII letters and digits. -/
def isAlphaNumChar (c : Char) : Bool :=
  (97 ≤ c.toNat && c.toNat ≤ 122) || (65 ≤ c.toNat && c.toNat ≤ 90) ||
    (48 ≤ c.toNat && c.toNat ≤ 57)

/-- Whether `url.PathEscape` escapes this character: unreserved marks and the
sub-delimiters Go keeps in a path segment pass through; `/ ; , ?` and
everything else (including all non-ASCII) are escaped. -/
def shouldEscapePathSegmentChar (c : Char) : Bool :=
  if isAlphaNumChar c then false
  else if c ∈ ['-', '_', '.', '~'] then false
  else if c ∈ ['$', '&', '+', ':', '=', '@'] then false
  else true

/-- Model of `url.PathEscape`. -/
def pathEscape (s : GoStr) : GoStr :=
  s.flatMap (fun c =>
    if shouldEscapePathSegmentChar c then (utf8EncodeChar c).flatMap percentEncodeByte
    else [c])

/-- Whether `url.QueryEscape` escapes this character (space handled apart). -/
def shouldEscapeQueryChar (c : Char) : Bool :=
  if isAlphaNumChar c then false
  else if c ∈ ['-', '_', '.', '~'] then false
  else true

/-- Model of `url.QueryEscape`. -/
def queryEscape (s : GoStr) : GoStr :=
  s.flatMap (fun c =>
    if c = ' ' then ['+']
    else if shouldEscapeQueryChar c then (utf8EncodeChar c).flatMap percentEncodeByte
    else [c])

/-- `fmt.Sprintf("%v", b)` for a bool. -/
def goBoolString (b : Bool) : GoStr := if b then gs "true" else gs "false"

/-! ## Client construction and request plumbing (`src/client.go`) -/

/-- The client state relevant to the embedded operations.  The HTTP client
object (timeout, transport) is the pluggable transport of the model; no
construction option touches the stored base address. -/
structure Client where
  baseURL : GoStr
  userAgent : GoStr
  deriving DecidableEq

/-- `DefaultUserAgent` of `src/client.go`. -/
def DefaultUserAgent : GoStr := gs "GatusSDK/1.0"

/-- Embedding of `NewClient` from `src/client.go`: the base URL is stored
after `strings.TrimSuffix(baseURL, "/")`. -/
def NewClient (baseURL : GoStr) : Client :=
  ⟨goTrimSuffix baseURL (gs "/"), DefaultUserAgent⟩

/-- An outbound request as observed on the wire. -/
structure GoRequest where
  method : GoStr
  path : GoStr
  bearer : Option GoStr
  deriving DecidableEq

/-- A scripted transport: the n-th issued request receives the n-th
response, or a transport-level failure with the given cause. -/
abbrev Transport := Nat → Except GoStr HttpResponse

/-! ## Endpoint operations.  The repository carries two generations of this
file: `src/endpoints.go` (namespace `EndpointsGo`) and
`src/unnamed/part_004` (namespace `Part004`).  They differ in which key
normalizer `GetEndpointStatus` uses and in whether the duration is
validated before a request is issued.  Each operation returns its result
together with the list of HTTP requests it issued, in order; the n-th
issued request is answered by `t n`. -/

/-- `ValidDurations` from `src/unnamed/part_004`. -/
def ValidDurations : List GoStr := [gs "1h", gs "24h", gs "7d", gs "30d"]

/-- `fmt.Sprintf("%v", ValidDurations)` as Go renders a string slice. -/
def durationValidationMessage : GoStr := gs "must be one of: [1h 24h 7d 30d]"

/-- Embedding of `ValidateDuration` from `src/unnamed/part_004`: `none`
when the duration is listed, otherwise the validation error the Go code
builds. -/
def ValidateDuration (duration : GoStr) : Option GoError :=
  if ValidDurations.contains duration then none
  else some (.validationError (gs "duration") durationValidationMessage)

/-- Path of the per-endpoint statuses resource. -/
def statusesPath (key : GoStr) : GoStr :=
  gs "/api/v1/endpoints/" ++ pathEscape key ++ gs "/statuses"

/-- Path of the uptime resource. -/
def uptimePath (key duration : GoStr) : GoStr :=
  gs "/api/v1/endpoints/" ++ pathEscape key ++ gs "/uptimes/" ++ pathEscape duration

/-- Path of the response-times resource. -/
def responseTimesPath (key duration : GoStr) : GoStr :=
  gs "/api/v1/endpoints/" ++ pathEscape key ++ gs "/response-times/" ++ pathEscape duration

/-- `url.Values.Encode` output for the query built by
`PushExternalEndpointResult`: keys emitted in sorted order
(duration, error, success), the optional ones only when nonempty. -/
def pushQuery (success : Bool) (errorMessage duration : GoStr) : GoStr :=
  let entries : List (GoStr × GoStr) :=
    (if duration = [] then [] else [(gs "duration", duration)]) ++
      (if errorMessage = [] then [] else [(gs "error", errorMessage)]) ++
      [(gs "success", goBoolString success)]
  (gs "&").intercalate (entries.map (fun e => e.1 ++ '=' :: queryEscape e.2))

/-- Path (with query) of the external push resource. -/
def externalPath (key : GoStr) (success : Bool) (errorMessage duration : GoStr) : GoStr :=
  gs "/api/v1/endpoints/" ++ pathEscape key ++ gs "/external?" ++
    pushQuery success errorMessage duration

/-- The validation error for an empty required field. -/
def emptyFieldError (field : String) : GoError :=
  .validationError (gs field) (gs "cannot be empty")

namespace EndpointsGo

/-- Embedding of `GetEndpointStatusByKey` from `src/endpoints.go`. -/
def GetEndpointStatusByKey (t : Transport) (key : GoStr) :
    Except GoError EndpointStatus × List GoRequest :=
  if key = [] then (.error (emptyFieldError "key"), [])
  else
    let req : GoRequest := ⟨gs "GET", statusesPath key, none⟩
    match t 0 with
    | .error cause => (.error (.transportError cause), [req])
    | .ok resp =>
      match decodeResponse decodeEndpointStatus EndpointStatus.zero resp with
      | .error e => (.error e, [req])
      | .ok status => (.ok status, [req])

/-- Embedding of `GetEndpointStatus` from `src/endpoints.go`: the key is
built with `GenerateKey` (the seven-character replacer). -/
def GetEndpointStatus (t : Transport) (group name : GoStr) :
    Except GoError EndpointStatus × List GoRequest :=
  if name = [] then (.error (emptyFieldError "name"), [])
  else GetEndpointStatusByKey t (GenerateKey group name)

/-- Embedding of `GetEndpointResponseTimes` from `src/endpoints.go`: note
the duration is NOT validated before the request is issued. -/
def GetEndpointResponseTimes (t : Transport) (key duration : GoStr) :
    Except GoError ResponseTimeData × List GoRequest :=
  if key = [] then (.error (emptyFieldError "key"), [])
  else
    let req : GoRequest := ⟨gs "GET", responseTimesPath key duration, none⟩
    match t 0 with
    | .error cause => (.error (.transportError cause), [req])
    | .ok resp =>
      match decodeResponse decodeResponseTimeData ResponseTimeData.zero resp with
      | .error e => (.error e, [req])
      | .ok data => (.ok data, [req])

/-- Embedding of `GetEndpointUptimeData` from `src/endpoints.go` (no
duration validation): try the structured shape; on decode failure re-issue
the same request and try a bare number, synthesizing `UptimeData` from it
and the caller-supplied duration; if both fail, return the first attempt's
error (after the `errors.As` probe for `*APIError`, whose two branches both
yield the first error). -/
def GetEndpointUptimeData (t : Transport) (key duration : GoStr) :
    Except GoError UptimeData × List GoRequest :=
  if key = [] then (.error (emptyFieldError "key"), [])
  else
    let req : GoRequest := ⟨gs "GET", uptimePath key duration, none⟩
    match t 0 with
    | .error cause => (.error (.transportError cause), [req])
    | .ok resp =>
      match decodeResponse decodeUptimeData UptimeData.zero resp with
      | .ok data => (.ok data, [req])
      | .error err =>
        match t 1 with
        | .error _ => (.error err, [req, req])
        | .ok resp2 =>
          match decodeResponse decodeFloat64 0 resp2 with
          | .ok uptimeFloat => (.ok ⟨uptimeFloat, duration, []⟩, [req, req])
          | .error _ =>
            match err with
            | .apiError s m b => (.error (.apiError s m b), [req, req])
            | _ => (.error err, [req, req])

/-- Embedding of `PushExternalEndpointResult` from `src/endpoints.go`: on a
non-2xx status the body is read raw (no gzip handling) and becomes the
`Message` of the returned `APIError`; its `Body` field is left empty.
(The `io.ReadAll` failure branch, which would use the status text instead,
is unreachable in this model since reading a payload always succeeds.) -/
def PushExternalEndpointResult (t : Transport) (key token : GoStr) (success : Bool)
    (errorMessage duration : GoStr) : Except GoError Unit × List GoRequest :=
  if key = [] then (.error (emptyFieldError "key"), [])
  else if token = [] then (.error (emptyFieldError "token"), [])
  else
    let req : GoRequest := ⟨gs "POST", externalPath key success errorMessage duration, some token⟩
    match t 0 with
    | .error cause => (.error (.transportError cause), [req])
    | .ok resp =>
      if resp.statusCode < 200 ∨ 300 ≤ resp.statusCode then
        (.error (.apiError resp.statusCode resp.body.rawPayload.text []), [req])
      else (.ok (), [req])

end EndpointsGo

namespace Part004

/-- `GetEndpointStatusByKey` of `src/unnamed/part_004`, textually identical
to the `src/endpoints.go` version. -/
def GetEndpointStatusByKey (t : Transport) (key : GoStr) :
    Except GoError EndpointStatus × List GoRequest :=
  EndpointsGo.GetEndpointStatusByKey t key

/-- Embedding of `GetEndpointStatus` from `src/unnamed/part_004`: the key is
built with `GenerateEndpointKey` (the five-character replacer). -/
def GetEndpointStatus (t : Transport) (group name : GoStr) :
    Except GoError EndpointStatus × List GoRequest :=
  if name = [] then (.error (emptyFieldError "name"), [])
  else GetEndpointStatusByKey t (GenerateEndpointKey group name)

/-- Embedding of `GetEndpointResponseTimes` from `src/unnamed/part_004`:
validates the duration before any request. -/
def GetEndpointResponseTimes (t : Transport) (key duration : GoStr) :
    Except GoError ResponseTimeData × List GoRequest :=
  if key = [] then (.error (emptyFieldError "key"), [])
  else
    match ValidateDuration duration with
    | some e => (.error e, [])
    | none =>
      let req : GoRequest := ⟨gs "GET", responseTimesPath key duration, none⟩
      match t 0 with
      | .error cause => (.error (.transportError cause), [req])
      | .ok resp =>
        match decodeResponse decodeResponseTimeData ResponseTimeData.zero resp with
        | .error e => (.error e, [req])
        | .ok data => (.ok data, [req])

/-- Embedding of `GetEndpointUptimeData` from `src/unnamed/part_004`: like
the `src/endpoints.go` version but validates the duration before any
request. -/
def GetEndpointUptimeData (t : Transport) (key duration : GoStr) :
    Except GoError UptimeData × List GoRequest :=
  if key = [] then (.error (emptyFieldError "key"), [])
  else
    match ValidateDuration duration with
    | some e => (.error e, [])
    | none =>
      let req : GoRequest := ⟨gs "GET", uptimePath key duration, none⟩
      match t 0 with
      | .error cause => (.error (.transportError cause), [req])
      | .ok resp =>
        match decodeResponse decodeUptimeData UptimeData.zero resp with
        | .ok data => (.ok data, [req])
        | .error err =>
          match t 1 with
          | .error _ => (.error err, [req, req])
          | .ok resp2 =>
            match decodeResponse decodeFloat64 0 resp2 with
            | .ok uptimeFloat => (.ok ⟨uptimeFloat, duration, []⟩, [req, req])
            | .error _ =>
              match err with
              | .apiError s m b => (.error (.apiError s m b), [req, req])
              | _ => (.error err, [req, req])

end Part004

theorem generateKey_ne_nil (g n : GoStr) : GenerateKey g n ≠ [] := by
  simp only [GenerateKey]
  split
  · simp
  · simp_all

theorem generateEndpointKey_ne_nil (g n : GoStr) : GenerateEndpointKey g n ≠ [] := by
  simp only [GenerateEndpointKey]
  split
  · simp
  · simp_all

/-! ## Claim C1 -/

/-- A scripted exchange in which both attempts return 2xx responses whose
bodies are distinct malformed JSON documents. -/
def bothFailTransport : Transport := fun n =>
  if n = 0 then .ok ⟨200, [], .plain ⟨gs "invalid json A", .malformed⟩⟩
  else .ok ⟨200, [], .plain ⟨gs "invalid json B", .malformed⟩⟩

/-- Claim C1, counterexample: with both decode attempts failing on distinct
malformed 2xx bodies and no API error involved, `GetEndpointUptimeData`
returns the FIRST attempt's decode failure — not the second attempt's as
the claim states. -/
theorem uptime_both_fail_counterexample :
    (EndpointsGo.GetEndpointUptimeData bothFailTransport (gs "test_key") (gs "24h")).1 =
        .error (.jsonDecodeError (gs "invalid json A")) ∧
      decodeResponse decodeFloat64 0 ⟨200, [], .plain ⟨gs "invalid json B", .malformed⟩⟩ =
        .error (.jsonDecodeError (gs "invalid json B")) ∧
      GoError.jsonDecodeError (gs "invalid json A") ≠
        GoError.jsonDecodeError (gs "invalid json B") := by
  refine ⟨rfl, rfl, by decide⟩

/-- Claim C1 (amended): when the first decode attempt of
`GetEndpointUptimeData` fails, the re-issued request's transport succeeds,
and its decode also fails, the first attempt's failure is returned —
whether or not it is an API error (the `errors.As` probe returns the very
same first error in both branches). -/
theorem uptime_both_fail_returns_first_error
    (t : Transport) (key duration : GoStr) (r1 r2 : HttpResponse) (e1 e2 : GoError)
    (hk : ¬key = []) (hv : ValidateDuration duration = none)
    (h0 : t 0 = .ok r1)
    (hd1 : decodeResponse decodeUptimeData UptimeData.zero r1 = .error e1)
    (h1 : t 1 = .ok r2)
    (hd2 : decodeResponse decodeFloat64 0 r2 = .error e2) :
    (EndpointsGo.GetEndpointUptimeData t key duration).1 = .error e1 ∧
      (Part004.GetEndpointUptimeData t key duration).1 = .error e1 := by
  constructor
  · simp only [EndpointsGo.GetEndpointUptimeData, if_neg hk, h0, hd1, h1, hd2]
    cases e1 <;> rfl
  · simp only [Part004.GetEndpointUptimeData, if_neg hk, hv, h0, hd1, h1, hd2]
    cases e1 <;> rfl

/-- Concrete instantiation of the amended C1 theorem. -/
theorem uptime_both_fail_returns_first_error_witness :
    (EndpointsGo.GetEndpointUptimeData bothFailTransport (gs "test_key") (gs "24h")).1 =
        .error (.jsonDecodeError (gs "invalid json A")) ∧
      (Part004.GetEndpointUptimeData bothFailTransport (gs "test_key") (gs "24h")).1 =
        .error (.jsonDecodeError (gs "invalid json A")) :=
  uptime_both_fail_returns_first_error bothFailTransport (gs "test_key") (gs "24h")
    ⟨200, [], .plain ⟨gs "invalid json A", .malformed⟩⟩
    ⟨200, [], .plain ⟨gs "invalid json B", .malformed⟩⟩
    (.jsonDecodeError (gs "invalid json A")) (.jsonDecodeError (gs "invalid json B"))
    (by decide) (by decide) rfl rfl rfl rfl

/-! ## Claim C2 -/

/-- A transport whose every response is 200 with an empty body. -/
def emptyOkTransport : Transport := fun _ => .ok ⟨200, [], .plain emptyPayload⟩

/-- Claim C2, code-bug evidence at the failing input duration `"48h"`: the
`src/endpoints.go` variants of `GetEndpointResponseTimes` and
`GetEndpointUptimeData` issue an HTTP request and return a decoded success
instead of a validation error, while the `src/unnamed/part_004` variants
return the duration validation error with no request issued (as the spec
and `endpoints_test.go` require). -/
theorem invalid_duration_unvalidated_in_endpoints_go :
    (EndpointsGo.GetEndpointResponseTimes emptyOkTransport (gs "core_api") (gs "48h")).2.length
        = 1 ∧
      (EndpointsGo.GetEndpointResponseTimes emptyOkTransport (gs "core_api") (gs "48h")).1 =
        .ok ResponseTimeData.zero ∧
      (EndpointsGo.GetEndpointUptimeData emptyOkTransport (gs "core_api") (gs "48h")).2.length
        = 1 ∧
      (EndpointsGo.GetEndpointUptimeData emptyOkTransport (gs "core_api") (gs "48h")).1 =
        .ok UptimeData.zero ∧
      (Part004.GetEndpointResponseTimes emptyOkTransport (gs "core_api") (gs "48h")).1 =
        .error (.validationError (gs "duration") durationValidationMessage) ∧
      (Part004.GetEndpointResponseTimes emptyOkTransport (gs "core_api") (gs "48h")).2 = [] ∧
      (Part004.GetEndpointUptimeData emptyOkTransport (gs "core_api") (gs "48h")).1 =
        .error (.validationError (gs "duration") durationValidationMessage) ∧
      (Part004.GetEndpointUptimeData emptyOkTransport (gs "core_api") (gs "48h")).2 = [] := by
  refine ⟨rfl, rfl, rfl, rfl, rfl, rfl, rfl, rfl⟩

/-! ## Claim C4 -/

/-- A transport answering every request with status 500 and body "boom". -/
def boomTransport : Transport := fun _ => .ok ⟨500, [], .plain ⟨gs "boom", .malformed⟩⟩

/-- Claim C4, counterexample: on a completed 500 exchange with body "boom",
`PushExternalEndpointResult` returns an API error whose message is the raw
body and whose body field is empty — not an error carrying the standard
reason phrase together with the body, as the claim asserts for this path. -/
theorem push_api_error_shape_counterexample :
    (EndpointsGo.PushExternalEndpointResult boomTransport (gs "core_ext-ep-test") (gs "potato")
        true [] []).1 = .error (.apiError 500 (gs "boom") []) ∧
      GoError.apiError 500 (gs "boom") [] ≠
        GoError.apiError 500 (statusText 500) (gs "boom") := by
  refine ⟨rfl, by decide⟩

/-- Claim C4 (amended): on every non-2xx completed exchange the shared
decode path returns an API error carrying the status code, the standard
reason phrase, and the full (decompressed when gzip-encoded) body text;
`PushExternalEndpointResult` instead returns an API error carrying the
status code with the raw body text as its message and an empty body
field. -/
theorem api_error_statuses
    {α : Type} (dec : Json → Option α) (zero : α) (status : Nat) (enc : GoStr) (p : Payload)
    (hst : status < 200 ∨ 300 ≤ status) (henc : ¬enc = gs "gzip") :
    decodeResponse dec zero ⟨status, enc, .plain p⟩ =
        .error (.apiError status (statusText status) p.text) ∧
      decodeResponse dec zero ⟨status, gs "gzip", .gzipped p⟩ =
        .error (.apiError status (statusText status) p.text) ∧
      ∀ (t : Transport) (key token : GoStr) (success : Bool) (errorMessage dur : GoStr),
        ¬key = [] → ¬token = [] → t 0 = .ok ⟨status, enc, .plain p⟩ →
        (EndpointsGo.PushExternalEndpointResult t key token success errorMessage dur).1 =
          .error (.apiError status p.text []) := by
  refine ⟨?_, ?_, ?_⟩
  · simp [decodeResponse, henc, hst, WireBody.rawPayload]
  · simp [decodeResponse, WireBody.gunzip, hst]
  · intro t key token success errorMessage dur hkey htoken ht0
    simp [EndpointsGo.PushExternalEndpointResult, hkey, htoken, ht0, hst,
      WireBody.rawPayload]

/-- Concrete instantiation of the amended C4 theorem at a 500 response. -/
theorem api_error_statuses_witness :
    decodeResponse decodeFloat64 0 ⟨500, [], .plain ⟨gs "boom", .malformed⟩⟩ =
        .error (.apiError 500 (statusText 500) (gs "boom")) ∧
      decodeResponse decodeFloat64 0 ⟨500, gs "gzip", .gzipped ⟨gs "boom", .malformed⟩⟩ =
        .error (.apiError 500 (statusText 500) (gs "boom")) ∧
      (EndpointsGo.PushExternalEndpointResult boomTransport (gs "core_ext-ep-test") (gs "potato")
          true [] []).1 = .error (.apiError 500 (gs "boom") []) := by
  have h := api_error_statuses decodeFloat64 0 500 [] ⟨gs "boom", .malformed⟩
    (by decide) (by decide)
  exact ⟨h.1, h.2.1,
    h.2.2 boomTransport (gs "core_ext-ep-test") (gs "potato") true [] []
      (by decide) (by decide) rfl⟩

/-! ## Claim C5 -/

/-- Claim C5, counterexample: a 204 response that carries the gzip
content-encoding marker with an empty (hence invalid-gzip) body is rejected
with a gzip-reader decode error, because `decodeResponse` initializes the
decompressing reader before looking at the status; the claim's
unconditional "204 succeeds without reading the body" (and "2xx with empty
body succeeds") fails there. -/
theorem gzip_204_counterexample :
    decodeResponse decodeFloat64 0 ⟨204, gs "gzip", .plain emptyPayload⟩ =
        .error .gzipReaderError ∧
      ¬decodeResponse decodeFloat64 0 ⟨204, gs "gzip", .plain emptyPayload⟩ = .ok 0 := by
  have h1 : decodeResponse decodeFloat64 0 ⟨204, gs "gzip", .plain emptyPayload⟩ =
      .error .gzipReaderError := rfl
  refine ⟨h1, ?_⟩
  rw [h1]
  simp

/-- Claim C5 (amended): for every response without the gzip
content-encoding marker, a 204 status succeeds with the zero value without
the body being read (the result is the same for every body), and every
other 2xx status with an empty body succeeds with the zero value. -/
theorem no_content_and_empty_body_succeed
    {α : Type} (dec : Json → Option α) (zero : α) (enc : GoStr) (henc : ¬enc = gs "gzip") :
    (∀ b : WireBody, decodeResponse dec zero ⟨204, enc, b⟩ = .ok zero) ∧
      ∀ status : Nat, 200 ≤ status → status < 300 →
        decodeResponse dec zero ⟨status, enc, .plain emptyPayload⟩ = .ok zero := by
  constructor
  · intro b
    simp [decodeResponse, henc]
  · intro status h1 h2
    have hc : ¬(status < 200 ∨ 300 ≤ status) := by omega
    by_cases h204 : status = 204
    · subst h204
      simp [decodeResponse, henc]
    · simp [decodeResponse, henc, hc, h204, emptyPayload, WireBody.rawPayload]

/-- Concrete instantiation of the amended C5 theorem. -/
theorem no_content_and_empty_body_succeed_witness :
    decodeResponse decodeUptimeData UptimeData.zero
        ⟨204, [], .plain ⟨gs "ignored", .malformed⟩⟩ = .ok UptimeData.zero ∧
      decodeResponse decodeUptimeData UptimeData.zero ⟨200, [], .plain emptyPayload⟩ =
        .ok UptimeData.zero := by
  have h := no_content_and_empty_body_succeed decodeUptimeData UptimeData.zero [] (by decide)
  exact ⟨h.1 (.plain ⟨gs "ignored", .malformed⟩), h.2 200 (by decide) (by decide)⟩

/-! ## Claim C6 -/

/-- Claim C6: a gzip-encoded 2xx body decodes exactly as its uncompressed
equivalent does without the marker, for every target-shape decoder; and a
response carrying the gzip marker whose body is not a well-formed gzip
stream yields the gzip-reader decode error, which is neither an API error
nor a JSON decode error. -/
theorem gzip_transparent_and_invalid_gzip_rejected
    {α : Type} (dec : Json → Option α) (zero : α) :
    (∀ (status : Nat) (p : Payload), 200 ≤ status → status < 300 →
        decodeResponse dec zero ⟨status, gs "gzip", .gzipped p⟩ =
          decodeResponse dec zero ⟨status, [], .plain p⟩) ∧
      ∀ (status : Nat) (b : WireBody), b.gunzip = none →
        decodeResponse dec zero ⟨status, gs "gzip", b⟩ = .error .gzipReaderError ∧
          GoError.gzipReaderError.isAPIError = false ∧
          GoError.gzipReaderError.isJSONDecodeError = false := by
  constructor
  · intro status p _ _
    have hne : ¬([] : GoStr) = gs "gzip" := by decide
    simp [decodeResponse, WireBody.gunzip, WireBody.rawPayload, hne]
  · intro status b hb
    refine ⟨?_, rfl, rfl⟩
    simp [decodeResponse, hb]

/-- Concrete instantiation of the C6 theorem: gzipped "98.5" decodes like
plain "98.5", and a plain (non-gzip) body under the gzip marker errors. -/
theorem gzip_transparent_witness :
    decodeResponse decodeFloat64 0
        ⟨200, gs "gzip", .gzipped ⟨gs "98.5", .value (.num (197 / 2))⟩⟩ =
      decodeResponse decodeFloat64 0 ⟨200, [], .plain ⟨gs "98.5", .value (.num (197 / 2))⟩⟩ ∧
      decodeResponse decodeFloat64 0 ⟨500, gs "gzip", .plain ⟨gs "boom", .malformed⟩⟩ =
        .error .gzipReaderError := by
  have h := gzip_transparent_and_invalid_gzip_rejected decodeFloat64 0
  exact ⟨h.1 200 ⟨gs "98.5", .value (.num (197 / 2))⟩ (by decide) (by decide),
    (h.2 500 (.plain ⟨gs "boom", .malformed⟩) rfl).1⟩

/-! ## Claim C7 -/

/-- Claim C7: whenever the first decode attempt of `GetEndpointUptimeData`
fails and the re-issued request's body decodes as a bare number `x`, the
call succeeds with an `UptimeData` whose uptime is `x` and whose duration
is the caller-supplied duration argument (both variants). -/
theorem uptime_fallback_bare_number
    (t : Transport) (key duration : GoStr) (r1 r2 : HttpResponse) (e1 : GoError) (x : Rat)
    (hk : ¬key = []) (hv : ValidateDuration duration = none)
    (h0 : t 0 = .ok r1)
    (hd1 : decodeResponse decodeUptimeData UptimeData.zero r1 = .error e1)
    (h1 : t 1 = .ok r2)
    (hd2 : decodeResponse decodeFloat64 0 r2 = .ok x) :
    (EndpointsGo.GetEndpointUptimeData t key duration).1 = .ok ⟨x, duration, []⟩ ∧
      (Part004.GetEndpointUptimeData t key duration).1 = .ok ⟨x, duration, []⟩ := by
  constructor
  · simp only [EndpointsGo.GetEndpointUptimeData, if_neg hk, h0, hd1, h1, hd2]
  · simp only [Part004.GetEndpointUptimeData, if_neg hk, hv, h0, hd1, h1, hd2]

/-- The scripted exchange of the backward-compatibility test: first a 2xx
malformed body, then a 2xx bare number `98.5`. -/
def bareNumberTransport : Transport := fun n =>
  if n = 0 then .ok ⟨200, [], .plain ⟨gs "invalid json", .malformed⟩⟩
  else .ok ⟨200, [], .plain ⟨gs "98.5", .value (.num (197 / 2))⟩⟩

/-- Concrete instantiation of the C7 theorem: the fallback yields uptime
98.5 with the requested duration "24h". -/
theorem uptime_fallback_bare_number_witness :
    (EndpointsGo.GetEndpointUptimeData bareNumberTransport (gs "test_key") (gs "24h")).1 =
        .ok ⟨197 / 2, gs "24h", []⟩ ∧
      (Part004.GetEndpointUptimeData bareNumberTransport (gs "test_key") (gs "24h")).1 =
        .ok ⟨197 / 2, gs "24h", []⟩ :=
  uptime_fallback_bare_number bareNumberTransport (gs "test_key") (gs "24h")
    ⟨200, [], .plain ⟨gs "invalid json", .malformed⟩⟩
    ⟨200, [], .plain ⟨gs "98.5", .value (.num (197 / 2))⟩⟩
    (.jsonDecodeError (gs "invalid json")) (197 / 2)
    (by decide) (by decide) rfl rfl rfl rfl

/-! ## Claim C8 -/

/-- Claim C8, counterexample: an input base URL ending in three slashes is
stored with two of them still present — `strings.TrimSuffix` removes at
most one trailing separator, so the stored base address can still end in
a slash. -/
theorem newClient_trailing_slashes_counterexample :
    (NewClient (gs "https://status.example.com///")).baseURL =
        gs "https://status.example.com//" ∧
      goHasSuffix (NewClient (gs "https://status.example.com///")).baseURL (gs "/") = true := by
  refine ⟨by decide, by decide⟩

/-- Claim C8 (amended): `NewClient` strips exactly one trailing separator
when one is present and stores the input unchanged otherwise; an input
ending in two or more slashes therefore keeps all but the last. -/
theorem newClient_trims_one_trailing_slash (s : GoStr) :
    (NewClient (s ++ gs "/")).baseURL = s ∧
      (goHasSuffix s (gs "/") = false → (NewClient s).baseURL = s) := by
  constructor
  · have hsuf : goHasSuffix (s ++ gs "/") (gs "/") = true := by
      simp only [goHasSuffix, List.isSuffixOf_iff_suffix]
      exact List.suffix_append s (gs "/")
    simp only [NewClient, goTrimSuffix, hsuf, if_true]
    have hlen : (s ++ gs "/").length - (gs "/").length = s.length := by
      simp [gs]
    rw [hlen]
    exact List.take_left s (gs "/")
  · intro h
    simp [NewClient, goTrimSuffix, h]

/-- Concrete instantiation of the amended C8 theorem. -/
theorem newClient_trims_one_trailing_slash_witness :
    (NewClient (gs "https://status.example.com" ++ gs "/")).baseURL =
        gs "https://status.example.com" ∧
      (NewClient (gs "https://status.example.com")).baseURL =
        gs "https://status.example.com" :=
  ⟨(newClient_trims_one_trailing_slash (gs "https://status.example.com")).1,
    (newClient_trims_one_trailing_slash (gs "https://status.example.com")).2 (by decide)⟩

/-! ## Claim C9 -/

/-- Claim C9: `GetEndpointUptimeData` issues at most two HTTP requests in
every execution (both variants); and when the first request fails at the
transport level, that failure is propagated immediately as a transport
error and exactly one request was issued. -/
theorem uptime_at_most_two_requests :
    (∀ (t : Transport) (key duration : GoStr),
        (EndpointsGo.GetEndpointUptimeData t key duration).2.length ≤ 2 ∧
          (Part004.GetEndpointUptimeData t key duration).2.length ≤ 2) ∧
      ∀ (t : Transport) (key duration cause : GoStr),
        ¬key = [] → ValidateDuration duration = none → t 0 = .error cause →
        (EndpointsGo.GetEndpointUptimeData t key duration).1 =
            .error (.transportError cause) ∧
          (EndpointsGo.GetEndpointUptimeData t key duration).2.length = 1 ∧
          (Part004.GetEndpointUptimeData t key duration).1 =
            .error (.transportError cause) ∧
          (Part004.GetEndpointUptimeData t key duration).2.length = 1 := by
  constructor
  · intro t key duration
    constructor
    · simp only [EndpointsGo.GetEndpointUptimeData]
      (repeat' split) <;> simp
    · simp only [Part004.GetEndpointUptimeData]
      (repeat' split) <;> simp
  · intro t key duration cause hk hv h0
    refine ⟨?_, ?_, ?_, ?_⟩ <;>
      simp only [EndpointsGo.GetEndpointUptimeData, Part004.GetEndpointUptimeData,
        if_neg hk, hv, h0, List.length_cons, List.length_nil]

/-- A transport that always fails with "connection refused". -/
def refusedTransport : Transport := fun _ => .error (gs "connection refused")

/-- Concrete instantiation of the C9 theorem. -/
theorem uptime_at_most_two_requests_witness :
    (EndpointsGo.GetEndpointUptimeData bareNumberTransport (gs "test_key") (gs "24h")).2.length
        ≤ 2 ∧
      (EndpointsGo.GetEndpointUptimeData refusedTransport (gs "test_key") (gs "24h")).1 =
          .error (.transportError (gs "connection refused")) ∧
        (EndpointsGo.GetEndpointUptimeData refusedTransport (gs "test_key") (gs "24h")).2.length
          = 1 ∧
        (Part004.GetEndpointUptimeData refusedTransport (gs "test_key") (gs "24h")).1 =
          .error (.transportError (gs "connection refused")) ∧
        (Part004.GetEndpointUptimeData refusedTransport (gs "test_key") (gs "24h")).2.length
          = 1 :=
  ⟨(uptime_at_most_two_requests.1 bareNumberTransport (gs "test_key") (gs "24h")).1,
    uptime_at_most_two_requests.2 refusedTransport (gs "test_key") (gs "24h")
      (gs "connection refused") (by decide) (by decide) rfl⟩

/-! ## Claim C10 -/

/-- Claim C10: the library carries two key normalizers that agree exactly
on inputs free of `+` and `&` (and always differ otherwise); the
`GetEndpointStatus` of `src/endpoints.go` addresses the endpoint keyed by
`GenerateKey`, while the `src/unnamed/part_004` variant addresses the one
keyed by `GenerateEndpointKey`. -/
theorem two_normalizers_and_their_callers :
    (∀ g n : GoStr,
        GenerateKey g n = GenerateEndpointKey g n ↔
          ('+' ∉ g ∧ '&' ∉ g ∧ '+' ∉ n ∧ '&' ∉ n)) ∧
      (∀ (t : Transport) (g n : GoStr),
        (EndpointsGo.GetEndpointStatus t g n).2 =
          if n = [] then [] else [⟨gs "GET", statusesPath (GenerateKey g n), none⟩]) ∧
      ∀ (t : Transport) (g n : GoStr),
        (Part004.GetEndpointStatus t g n).2 =
          if n = [] then [] else [⟨gs "GET", statusesPath (GenerateEndpointKey g n), none⟩] := by
  refine ⟨generateKey_eq_generateEndpointKey_iff, ?_, ?_⟩
  · intro t g n
    by_cases hn : n = []
    · simp [EndpointsGo.GetEndpointStatus, hn]
    · simp only [EndpointsGo.GetEndpointStatus, if_neg hn,
        EndpointsGo.GetEndpointStatusByKey, if_neg (generateKey_ne_nil g n)]
      cases h0 : t 0 with
      | error cause => simp [hn]
      | ok resp => (repeat' split) <;> rfl
  · intro t g n
    by_cases hn : n = []
    · simp [Part004.GetEndpointStatus, hn]
    · simp only [Part004.GetEndpointStatus, if_neg hn, Part004.GetEndpointStatusByKey,
        EndpointsGo.GetEndpointStatusByKey, if_neg (generateEndpointKey_ne_nil g n)]
      cases h0 : t 0 with
      | error cause => simp [hn]
      | ok resp => (repeat' split) <;> rfl

/-- Concrete instantiation of the C10 theorem. -/
theorem two_normalizers_and_their_callers_witness :
    (GenerateKey (gs "env+prod") (gs "api") = GenerateEndpointKey (gs "env+prod") (gs "api") ↔
        ('+' ∉ gs "env+prod" ∧ '&' ∉ gs "env+prod" ∧ '+' ∉ gs "api" ∧ '&' ∉ gs "api")) ∧
      (EndpointsGo.GetEndpointStatus emptyOkTransport (gs "core") (gs "blog-home")).2 =
        (if gs "blog-home" = ([] : GoStr) then [] else
          [⟨gs "GET", statusesPath (GenerateKey (gs "core") (gs "blog-home")), none⟩]) ∧
      (Part004.GetEndpointStatus emptyOkTransport (gs "core") (gs "blog-home")).2 =
        (if gs "blog-home" = ([] : GoStr) then [] else
          [⟨gs "GET", statusesPath (GenerateEndpointKey (gs "core") (gs "blog-home")), none⟩]) :=
  ⟨two_normalizers_and_their_callers.1 (gs "env+prod") (gs "api"),
    two_normalizers_and_their_callers.2.1 emptyOkTransport (gs "core") (gs "blog-home"),
    two_normalizers_and_their_callers.2.2 emptyOkTransport (gs "core") (gs "blog-home")⟩

/-- Concrete instantiation of the C3 theorem. -/
theorem generateKey_matches_spec_normalize_witness :
    GenerateKey (gs "api/v1") (gs "health_check") =
        specNormalize (gs "api/v1") (gs "health_check") ∧
      GenerateKey (gs "env+prod&region") (gs "service+api&gateway") =
        gs "env-prod-region_service-api-gateway" :=
  ⟨generateKey_matches_spec_normalize.1 (gs "api/v1") (gs "health_check"),
    generateKey_matches_spec_normalize.2⟩

end GatusSDK
